import Mathlib

/-!
Shallow embedding of the WINC1500 Pico2 driver's mesh routing layer
(src/WINC1500_PICO2.c) and socket layer (src/winc_lib.c), with theorems
checking the natural-language specification against the code.

Conventions:
* C `uint8_t`/`uint16_t`/`uint32_t` fields that the claims never overflow
  are modelled as `Nat`; where 32-bit wraparound matters (timestamp
  subtraction) it is made explicit via `u32_sub`.
* The fixed C array `routes[WINC_MESH_MAX_NODES]` is a `List RouteEntry`
  (length 8 in any reachable state); loops bounded by `route_count`
  recurse on an explicit count, mirroring `for (i = 0; i < route_count; i++)`.
* Outward effects (packets handed to `put_sock_sendto`, invocations of the
  registered data callback, socket commands issued over HIF) are returned
  as explicit values, so "never transmitted" is "the returned option/list
  is empty".
-/

namespace Winc

/-! ### Constants from src/winc_lib.h -/

def WINC_MESH_BEACON_INTERVAL_MS : Nat := 5000
def WINC_MESH_ROUTE_TIMEOUT_MS : Nat := 30000
def WINC_MESH_MAX_NODES : Nat := 8

def MESH_MSG_BEACON : Nat := 0x01
def MESH_MSG_DATA : Nat := 0x02
def MESH_MSG_ROUTE_REQ : Nat := 0x03
def MESH_MSG_ROUTE_RESP : Nat := 0x04

def MIN_SOCKET : Nat := 0
def MIN_TCP_SOCK : Nat := 0
def MAX_TCP_SOCK : Nat := 7
def MIN_UDP_SOCK : Nat := 7
def MAX_UDP_SOCK : Nat := 10
def MAX_SOCKETS : Nat := 10
def IP_FAMILY : Nat := 2
def STATE_CLOSED : Nat := 0
def STATE_BINDING : Nat := 1
def STATE_BOUND : Nat := 2
def STATE_ACCEPTED : Nat := 3
def STATE_CONNECTED : Nat := 4
def UDP_DATA_OSET : Nat := 68
def TCP_DATA_OSET : Nat := 80

/-- `swap16` from src/winc_lib.c:276: `(val >> 8) | ((val & 0xff) << 8)`
on a `uint16_t`. -/
def swap16 (val : Nat) : Nat := (val % 65536) / 256 + (val % 256) * 256

/-- 32-bit wrapping subtraction, the meaning of `now - t` on `uint32_t`. -/
def u32_sub (a b : Nat) : Nat :=
  (a % 4294967296 + (4294967296 - b % 4294967296)) % 4294967296

/-! ### Mesh routing data model (src/WINC1500_PICO2.c context struct) -/

/-- One slot of `g_ctx.mesh.routes[]`: destination node, next hop,
hop count, last-seen timestamp, active flag. -/
structure RouteEntry where
  node_id : Nat
  next_hop : Nat
  hop_count : Nat
  last_seen : Nat
  active : Bool
deriving Repr, DecidableEq, Inhabited

/-- The mesh-relevant part of `g_ctx.mesh`.  `has_callback` models whether
`data_callback` is a non-null function pointer. -/
structure MeshState where
  enabled : Bool
  udp_socket : Int
  my_node_id : Nat
  routes : List RouteEntry
  route_count : Nat
  seq_num : Nat
  last_beacon : Nat
  has_callback : Bool
deriving Repr, DecidableEq, Inhabited

/-- The scan loop of `mesh_update_route` (src/WINC1500_PICO2.c:1079):
walks the route array in order; breaks with the first index whose entry is
active and matches `node_id`; otherwise remembers the first inactive index
as the free slot.  Returns `(existing, free_slot)` as the C `int`s, with
`-1` as `none`.  `i` is the absolute index of the head of `l`, `free` the
free slot found so far. -/
def mesh_scan (node_id : Nat) : List RouteEntry → Nat → Option Nat →
    Option Nat × Option Nat
  | [], _, free => (none, free)
  | r :: rest, i, free =>
    if r.active && (r.node_id == node_id) then (some i, free)
    else mesh_scan node_id rest (i + 1)
      (if !r.active && free.isNone then some i else free)

/-- `mesh_update_route` (src/WINC1500_PICO2.c:1073): update an existing
active entry in place when the advertised hop count is `<=` the stored
one, else (no existing entry) fill the first free slot and bump
`route_count` to `free_slot + 1` when the slot lies beyond it.
`now` is `to_ms_since_boot(get_absolute_time())`. -/
def mesh_update_route (node_id next_hop hop_count now : Nat)
    (s : MeshState) : MeshState :=
  match mesh_scan node_id s.routes 0 none with
  | (some existing, _) =>
    let old := s.routes.getD existing default
    let upd := { old with
      next_hop := next_hop, hop_count := hop_count, last_seen := now }
    if hop_count ≤ old.hop_count then
      { s with routes := s.routes.set existing upd }
    else s
  | (none, some free_slot) =>
    let fresh : RouteEntry :=
      { node_id := node_id, next_hop := next_hop, hop_count := hop_count,
        last_seen := now, active := true }
    let s' := { s with routes := s.routes.set free_slot fresh }
    if free_slot ≥ s.route_count then { s' with route_count := free_slot + 1 }
    else s'
  | (none, none) => s

/-- The scan loop of `mesh_find_route` (src/WINC1500_PICO2.c:1115):
`for (i = 0; i < route_count; i++)`, keeping the index of the best
(minimum hop-count) active matching entry.  `cnt` is the remaining loop
budget (`route_count` minus the entries already scanned), `i` the absolute
index of the head of the list, `best`/`min_hops` the accumulators
(`best = -1` is `none`, `min_hops` starts at 255). -/
def mesh_find_route_scan (dst_node : Nat) : List RouteEntry → Nat → Nat →
    Option Nat → Nat → Option Nat × Nat
  | [], _, _, best, min_hops => (best, min_hops)
  | _, 0, _, best, min_hops => (best, min_hops)
  | r :: rest, cnt + 1, i, best, min_hops =>
    if r.active && (r.node_id == dst_node) && decide (r.hop_count < min_hops)
    then mesh_find_route_scan dst_node rest cnt (i + 1) (some i) r.hop_count
    else mesh_find_route_scan dst_node rest cnt (i + 1) best min_hops

/-- `mesh_find_route` (src/WINC1500_PICO2.c:1115): returns
`routes[best].next_hop` when a best active entry was found, else `-1`
(modelled as `none`). -/
def mesh_find_route (s : MeshState) (dst_node : Nat) : Option Nat :=
  match (mesh_find_route_scan dst_node s.routes s.route_count 0 none 255).1 with
  | some best => some (s.routes.getD best default).next_hop
  | none => none

/-- One iteration of the route-timeout sweep in `winc_mesh_process`
(src/WINC1500_PICO2.c:1210): an active entry whose age exceeds
`WINC_MESH_ROUTE_TIMEOUT_MS` is marked inactive. -/
def sweep_route (now : Nat) (r : RouteEntry) : RouteEntry :=
  if r.active && decide (u32_sub now r.last_seen > WINC_MESH_ROUTE_TIMEOUT_MS)
  then { r with active := false } else r

/-- The sweep loop of `winc_mesh_process`: applies `sweep_route` to the
first `cnt = route_count` entries, leaving the rest untouched. -/
def sweep_routes (now : Nat) : List RouteEntry → Nat → List RouteEntry
  | [], _ => []
  | rs, 0 => rs
  | r :: rest, cnt + 1 => sweep_route now r :: sweep_routes now rest cnt

/-- `winc_mesh_process` (src/WINC1500_PICO2.c:1189), restricted to its
effect on the mesh state: when disabled it returns at once; otherwise it
possibly broadcasts a beacon (which reads the routing table but never
writes it, only bumping `seq_num` and resetting `last_beacon`) and then
sweeps the routing table.  `beacon_sent` models whether the beacon branch
passed its socket checks inside `mesh_send_beacon` (socket valid and
bound), in which case `seq_num` was incremented by the beacon header
build. -/
def winc_mesh_process (now : Nat) (beacon_sock_ok : Bool)
    (s : MeshState) : MeshState :=
  if !s.enabled then s
  else
    let s1 :=
      if u32_sub now s.last_beacon > WINC_MESH_BEACON_INTERVAL_MS then
        { s with
          seq_num := if beacon_sock_ok then (s.seq_num + 1) % 65536
                     else s.seq_num,
          last_beacon := now }
      else s
    { s1 with routes := sweep_routes now s1.routes s1.route_count }

/-- `winc_mesh_get_node_count` (src/winc_lib.c:1049): counts the active
entries among the first `route_count` slots. -/
def winc_mesh_get_node_count (s : MeshState) : Nat :=
  ((s.routes.take s.route_count).filter (fun r => r.active)).length

/-! ### Mesh packets (src/winc_lib.h mesh header, src/WINC1500_PICO2.c) -/

/-- `winc_mesh_hdr_t`: type, source, destination, hop count, sequence
number, payload length. -/
structure MeshHdr where
  msg_type : Nat
  src_node : Nat
  dst_node : Nat
  hop_count : Nat
  seq_num : Nat
  payload_len : Nat
deriving Repr, DecidableEq, Inhabited

/-- The outward actions of the mesh receive path: the packet handed to
`put_sock_sendto` (if any) and the `(src_node, payload_len)` of the
invocation of the registered data callback (if any). -/
structure RouteResult where
  sent : Option MeshHdr
  delivered : Option (Nat × Nat)
deriving Repr, DecidableEq, Inhabited

/-- `mesh_route_packet` (src/WINC1500_PICO2.c:1034): deliver if the
destination is the local node; else drop when `hop_count >=
MESH_MSG_ROUTE_RESP` (the code's hop ceiling, value 4); else drop when no
route; else increment the header's hop count in place and forward the
packet via `put_sock_sendto`. -/
def mesh_route_packet (s : MeshState) (hdr : MeshHdr) : RouteResult :=
  if hdr.dst_node == s.my_node_id then
    { sent := none,
      delivered := if s.has_callback then some (hdr.src_node, hdr.payload_len)
                   else none }
  else if MESH_MSG_ROUTE_RESP ≤ hdr.hop_count then
    { sent := none, delivered := none }
  else
    match mesh_find_route s hdr.dst_node with
    | none => { sent := none, delivered := none }
    | some _ =>
      { sent := some { hdr with hop_count := hdr.hop_count + 1 },
        delivered := none }

/-- The data-forwarding actions of `mesh_packet_handler`
(src/WINC1500_PICO2.c:1134).  `rxlen <= 0` returns at once; `got_data`
models the success of `get_sock_data` (a failed fetch also returns at
once).  A `MESH_MSG_DATA` packet addressed to the local node or to the
broadcast id 0xFF is delivered to the callback, any other destination
goes to `mesh_route_packet`.  The `MESH_MSG_BEACON` branch updates the
routing table through `mesh_handle_beacon` but never forwards a packet
nor invokes the data callback, and unknown types are ignored, so both
yield no outward action. -/
def mesh_packet_handler (s : MeshState) (rxlen : Int) (got_data : Bool)
    (hdr : MeshHdr) : RouteResult :=
  if rxlen ≤ 0 then { sent := none, delivered := none }
  else if !got_data then { sent := none, delivered := none }
  else if hdr.msg_type == MESH_MSG_DATA then
    if hdr.dst_node == s.my_node_id || hdr.dst_node == 0xFF then
      { sent := none,
        delivered := if s.has_callback then some (hdr.src_node, hdr.payload_len)
                     else none }
    else mesh_route_packet s hdr
  else { sent := none, delivered := none }

/-- A call to `put_sock_sendto` made by `winc_mesh_send`: the socket and
the packet header (payload bytes follow the header in the real buffer). -/
structure MeshSendtoCall where
  sock : Int
  hdr : MeshHdr
deriving Repr, DecidableEq, Inhabited

/-- `winc_mesh_send` (src/WINC1500_PICO2.c:975): fail when mesh is
disabled, the UDP socket is invalid, or no route exists; otherwise build
a `MESH_MSG_DATA` header (hop count 0, fresh sequence number), transmit
via `put_sock_sendto` and return its result.  `sendto_ok` models the
outcome of `put_sock_sendto`; `malloc` is assumed to succeed (allocation
failure is outside the embedding and also returns `false` with no
transmission).  Returns (result, new state, the sendto call if one was
made). -/
def winc_mesh_send (s : MeshState) (dst_node len : Nat) (sendto_ok : Bool) :
    Bool × MeshState × Option MeshSendtoCall :=
  if !s.enabled then (false, s, none)
  else if s.udp_socket < 0 then (false, s, none)
  else
    match mesh_find_route s dst_node with
    | none => (false, s, none)
    | some _ =>
      let hdr : MeshHdr :=
        { msg_type := MESH_MSG_DATA, src_node := s.my_node_id,
          dst_node := dst_node, hop_count := 0,
          seq_num := s.seq_num % 65536, payload_len := len }
      (sendto_ok, { s with seq_num := (s.seq_num + 1) % 65536 },
       some { sock := s.udp_socket, hdr := hdr })

/-! ### Socket layer (src/winc_lib.c) -/

/-- `SOCK_ADDR`: family, port (wire byte order), IPv4 address. -/
structure SOCK_ADDR where
  family : Nat
  port : Nat
  ip : Nat
deriving Repr, DecidableEq, Inhabited

/-- One slot of `g_ctx.sockets[]`.  `has_handler` models a non-null
handler pointer; `hif_data_addr` is the remembered device-side data
address. -/
structure SOCKET where
  addr : SOCK_ADDR
  localport : Nat
  session : Nat
  state : Nat
  has_handler : Bool
  hif_data_addr : Nat
deriving Repr, DecidableEq, Inhabited

/-- GOP codes, `GIDOP(gid, op) = (gid << 8) | op` with `GID_WIFI = 1`,
`GID_IP = 2` (src/winc_lib.h:261). -/
def GOP_DHCP_CONF : Nat := 1 * 256 + 50
def GOP_BIND : Nat := 2 * 256 + 65
def GOP_LISTEN : Nat := 2 * 256 + 66
def GOP_ACCEPT : Nat := 2 * 256 + 67
def GOP_SEND : Nat := 2 * 256 + 69
def GOP_RECV : Nat := 2 * 256 + 70
def GOP_SENDTO : Nat := 2 * 256 + 71
def GOP_RECVFROM : Nat := 2 * 256 + 72
def GOP_CLOSE : Nat := 2 * 256 + 73

/-- Modelled from the spec: `GOP_AP_ENABLE` and `GOP_DHCP_CONF_AP` are
access-point events defined outside src/ (only used in src/winc_lib.c).
They belong to the WIFI group (`gid = 1`), hence are distinct from every
`GID_IP` socket opcode above; only that distinctness matters to the
theorems below. -/
def GOP_AP_ENABLE : Nat := 1 * 256 + 52

/-- Modelled from the spec: see `GOP_AP_ENABLE`. -/
def GOP_DHCP_CONF_AP : Nat := 1 * 256 + 60

/-- The fields of the `RESP_MSG` union that `check_sock` reads, one field
per C access path (`rmp->bind.sock`, `rmp->recv.sock`, `rmp->recv.dlen`,
`rmp->recv.addr`, `rmp->accept.listen_sock`, `rmp->accept.conn_sock`). -/
structure RESP_MSG where
  bind_sock : Nat
  recv_sock : Nat
  recv_dlen : Int
  recv_addr : SOCK_ADDR
  accept_listen_sock : Nat
  accept_conn_sock : Nat
deriving Repr, DecidableEq, Inhabited

/-- A socket command issued to the chip by the dispatcher
(`put_sock_bind` / `put_sock_listen` / `put_sock_recv` /
`put_sock_recvfrom`). -/
inductive SockCmd where
  | bind (sock : Nat) (port : Nat)
  | listen (sock : Nat)
  | recv (sock : Nat)
  | recvfrom (sock : Nat)
deriving Repr, DecidableEq

/-- What one `check_sock` call did: the updated pool, the handler
invocations `(sock, dlen)` in order, and the socket commands issued. -/
structure CheckSockResult where
  sockets : List SOCKET
  handler_calls : List (Nat × Int)
  cmds : List SockCmd
deriving Repr, DecidableEq

/-- `sock_state` (src/winc_lib.c:564): guarded write of the state field. -/
def sock_state (sockets : List SOCKET) (sock : Nat) (news : Nat) :
    List SOCKET :=
  if sock < MAX_SOCKETS then
    sockets.set sock { sockets.getD sock default with state := news }
  else sockets

/-- The state effect of `put_sock_bind` (src/winc_lib.c:569): stores
`{family := IP_FAMILY, port := swap16 port, ip := 0}` into the socket's
`addr` and issues the bind command. -/
def put_sock_bind (sockets : List SOCKET) (sock : Nat) (port : Nat) :
    List SOCKET × SockCmd :=
  (sockets.set sock
     { sockets.getD sock default with
       addr := { family := IP_FAMILY, port := swap16 port, ip := 0 } },
   SockCmd.bind sock port)

/-- The `GOP_DHCP_CONF`/`GOP_AP_ENABLE`/`GOP_DHCP_CONF_AP` branch of
`check_sock`: bind every socket still in `STATE_BINDING`.  `idx` is the
absolute index of the head of `rest`. -/
def bind_pending : List SOCKET → Nat → List SOCKET × List SockCmd
  | [], _ => ([], [])
  | sp :: rest, idx =>
    let (rest', cmds) := bind_pending rest (idx + 1)
    if sp.state == STATE_BINDING then
      ({ sp with
         addr := { family := IP_FAMILY, port := swap16 sp.localport,
                   ip := 0 } } :: rest',
       SockCmd.bind idx sp.localport :: cmds)
    else (sp :: rest', cmds)

/-- `check_sock` (src/winc_lib.c:686): dispatch one chip response to the
socket pool.  Each socket-indexed branch requires its index to be
`< MAX_SOCKETS` before touching the pool; the handler is invoked only
when registered; `GOP_RECVFROM` re-arms unconditionally after the
handler while `GOP_RECV` re-arms only when `dlen > 0`. -/
def check_sock (gop : Nat) (rmp : RESP_MSG) (sockets : List SOCKET) :
    CheckSockResult :=
  if gop == GOP_DHCP_CONF || gop == GOP_AP_ENABLE || gop == GOP_DHCP_CONF_AP
  then
    let (sockets', cmds) := bind_pending sockets 0
    { sockets := sockets', handler_calls := [], cmds := cmds }
  else if gop == GOP_BIND && decide (rmp.bind_sock < MAX_SOCKETS) &&
          ((sockets.getD rmp.bind_sock default).state == STATE_BINDING) then
    let sock := rmp.bind_sock
    let sockets' := sock_state sockets sock STATE_BOUND
    if sock < MIN_UDP_SOCK then
      { sockets := sockets', handler_calls := [],
        cmds := [SockCmd.listen sock] }
    else
      { sockets := sockets', handler_calls := [],
        cmds := [SockCmd.recvfrom sock] }
  else if gop == GOP_BIND then
    -- diagnostic printf only
    { sockets := sockets, handler_calls := [], cmds := [] }
  else if gop == GOP_RECVFROM && decide (rmp.recv_sock < MAX_SOCKETS) &&
          ((sockets.getD rmp.recv_sock default).state == STATE_BOUND) then
    let sock := rmp.recv_sock
    let sp := sockets.getD sock default
    let sockets' := sockets.set sock { sp with addr := rmp.recv_addr }
    { sockets := sockets',
      handler_calls := if sp.has_handler then [(sock, rmp.recv_dlen)] else [],
      cmds := [SockCmd.recvfrom sock] }
  else if gop == GOP_ACCEPT &&
          decide (rmp.accept_listen_sock < MAX_SOCKETS) &&
          decide (rmp.accept_conn_sock < MAX_SOCKETS) &&
          ((sockets.getD rmp.accept_listen_sock default).state == STATE_BOUND)
  then
    let sock := rmp.accept_listen_sock
    let sock2 := rmp.accept_conn_sock
    let sp2 := sockets.getD sock2 default
    let sockets' := sockets.set sock2
      { sp2 with addr := rmp.recv_addr,
                 has_handler := (sockets.getD sock default).has_handler }
    let sockets'' := sock_state sockets' sock2 STATE_CONNECTED
    { sockets := sockets'', handler_calls := [],
      cmds := [SockCmd.recv sock2] }
  else if gop == GOP_RECV && decide (rmp.recv_sock < MAX_SOCKETS) &&
          ((sockets.getD rmp.recv_sock default).state == STATE_CONNECTED) then
    let sock := rmp.recv_sock
    let sp := sockets.getD sock default
    { sockets := sockets,
      handler_calls := if sp.has_handler then [(sock, rmp.recv_dlen)] else [],
      cmds := if rmp.recv_dlen > 0 then [SockCmd.recv sock] else [] }
  else { sockets := sockets, handler_calls := [], cmds := [] }

/-- `SENDTO_CMD` as filled by `put_sock_sendto`. -/
structure SENDTO_CMD where
  sock : Nat
  len : Nat
  saddr : SOCK_ADDR
  session : Nat
deriving Repr, DecidableEq, Inhabited

/-- The HIF message built by `put_sock_sendto` via
`hif_put(GOP_SENDTO | REQ_DATA, &sc, sizeof sc, data, len, UDP_DATA_OSET)`:
the command structure sits at the start of the body and the payload bytes
are written at byte offset `payload_oset` from the body start, inside the
same message. -/
structure SendtoMsg where
  cmd : SENDTO_CMD
  payload_oset : Nat
deriving Repr, DecidableEq, Inhabited

/-- `put_sock_sendto` (src/winc_lib.c:612): substitute the all-ones
broadcast address when the stored remote IP is 0 and the socket's bound
local port when the stored remote port is 0; the port is byte-swapped
into wire order; the payload is placed at `UDP_DATA_OSET`. -/
def put_sock_sendto (sp : SOCKET) (sock : Nat) (len : Nat) : SendtoMsg :=
  let dest_ip := if sp.addr.ip == 0 then 0xFFFFFFFF else sp.addr.ip
  let dest_port := if sp.addr.port == 0 then sp.localport else sp.addr.port
  { cmd := { sock := sock, len := len,
             saddr := { family := sp.addr.family, port := swap16 dest_port,
                        ip := dest_ip },
             session := sp.session },
    payload_oset := UDP_DATA_OSET }

/-- The slot-scan loop of `open_sock_server` (src/winc_lib.c:546):
`for (sock = smin; sock < smax; sock++)`, stopping at the first slot
whose state is `STATE_CLOSED` (0).  `cnt = smax - smin` is the remaining
loop budget. -/
def open_sock_scan (sockets : List SOCKET) : Nat → Nat → Option Nat
  | _, 0 => none
  | sock, cnt + 1 =>
    if (sockets.getD sock default).state == 0 then some sock
    else open_sock_scan sockets (sock + 1) cnt

/-- `open_sock_server` (src/winc_lib.c:542): allocate the first closed
slot in the kind-specific sub-range `[smin, smax)`, assign port, session
and handler, move it to `STATE_BINDING`, and bind immediately when DHCP
has completed; return `-1` when the sub-range is exhausted.  Returns
(returned socket number, updated pool, commands issued). -/
def open_sock_server (sockets : List SOCKET) (portnum : Nat) (tcp : Bool)
    (session : Nat) (dhcp_done : Bool) :
    Int × List SOCKET × List SockCmd :=
  let smin := if tcp then MIN_TCP_SOCK else MIN_UDP_SOCK
  let smax := if tcp then MAX_TCP_SOCK else MAX_UDP_SOCK
  match open_sock_scan sockets smin (smax - smin) with
  | none => (-1, sockets, [])
  | some sock =>
    let sp := sockets.getD sock default
    let sp1 := { sp with
      localport := portnum, session := session, has_handler := true }
    let sockets1 := sock_state (sockets.set sock sp1) sock STATE_BINDING
    if dhcp_done then
      let (sockets2, cmd) := put_sock_bind sockets1 sock portnum
      (Int.ofNat sock, sockets2, [cmd])
    else
      (Int.ofNat sock, sockets1, [])

/-! ### Helper lemmas -/

/-- On in-range timestamps with a monotone clock, 32-bit wrapping
subtraction is plain subtraction. -/
theorem u32_sub_eq (a b : Nat) (hb : b ≤ a) (ha : a < 4294967296) :
    u32_sub a b = a - b := by
  unfold u32_sub
  omega

/-- `mesh_scan` stops at the first active entry matching `node_id`. -/
theorem mesh_scan_finds (node_id : Nat) :
    ∀ (l : List RouteEntry) (i : Nat) (free : Option Nat) (k : Nat),
    k < l.length →
    (l.getD k default).active = true →
    (l.getD k default).node_id = node_id →
    (∀ j, j < k → ¬((l.getD j default).active = true ∧
                    (l.getD j default).node_id = node_id)) →
    ∃ f, mesh_scan node_id l i free = (some (i + k), f) := by
  intro l
  induction l with
  | nil => intro i free k hk; simp at hk
  | cons r rest ih =>
    intro i free k hk hact hnode hfirst
    match k with
    | 0 =>
      refine ⟨free, ?_⟩
      simp only [List.getD_cons_zero] at hact hnode
      simp [mesh_scan, hact, hnode]
    | k' + 1 =>
      have hhead := hfirst 0 (Nat.succ_pos k')
      simp only [List.getD_cons_zero] at hhead
      have hcond : (r.active && (r.node_id == node_id)) = false := by
        cases hra : r.active with
        | false => simp
        | true =>
          simp only [Bool.true_and, beq_eq_false_iff_ne, ne_eq]
          intro hn; exact hhead ⟨hra, hn⟩
      simp only [List.getD_cons_succ] at hact hnode
      have hfirst' : ∀ j, j < k' → ¬((rest.getD j default).active = true ∧
          (rest.getD j default).node_id = node_id) := by
        intro j hj
        have := hfirst (j + 1) (Nat.succ_lt_succ hj)
        simpa using this
      have hk' : k' < rest.length := by simpa using hk
      obtain ⟨f, hf⟩ := ih (i + 1)
        (if !r.active && free.isNone then some i else free) k' hk' hact hnode
        hfirst'
      refine ⟨f, ?_⟩
      simp only [mesh_scan, hcond, Bool.false_eq_true, if_false]
      rw [hf]
      congr 2
      omega

/-- The in-place update a beacon applies to an existing route entry:
next hop and hop count are overwritten and the timestamp refreshed. -/
def route_overwrite (r : RouteEntry) (next_hop hop_count now : Nat) :
    RouteEntry :=
  { r with
    next_hop := next_hop, hop_count := hop_count, last_seen := now }

/-- `mesh_update_route` on a destination whose first matching active entry
sits at index `k`, with an advertised hop count `<=` the stored one:
the entry is overwritten (next hop, hop count) and its timestamp
refreshed, all other state unchanged. -/
theorem mesh_update_route_le (node_id next_hop hop_count now : Nat)
    (s : MeshState) (k : Nat)
    (hk : k < s.routes.length)
    (hact : (s.routes.getD k default).active = true)
    (hnode : (s.routes.getD k default).node_id = node_id)
    (hfirst : ∀ j, j < k → ¬((s.routes.getD j default).active = true ∧
                             (s.routes.getD j default).node_id = node_id))
    (hle : hop_count ≤ (s.routes.getD k default).hop_count) :
    mesh_update_route node_id next_hop hop_count now s =
      { s with
        routes := s.routes.set k
          (route_overwrite (s.routes.getD k default) next_hop hop_count now) }
    := by
  obtain ⟨f, hf⟩ := mesh_scan_finds node_id s.routes 0 none k hk hact hnode
    hfirst
  simp only [Nat.zero_add] at hf
  simp only [List.getD_eq_getElem?_getD] at hle ⊢
  simp [mesh_update_route, route_overwrite, hf, hle]

/-- `mesh_update_route` on a destination whose first matching active entry
sits at index `k`, with a strictly worse advertised hop count: the whole
mesh state is unchanged. -/
theorem mesh_update_route_gt (node_id next_hop hop_count now : Nat)
    (s : MeshState) (k : Nat)
    (hk : k < s.routes.length)
    (hact : (s.routes.getD k default).active = true)
    (hnode : (s.routes.getD k default).node_id = node_id)
    (hfirst : ∀ j, j < k → ¬((s.routes.getD j default).active = true ∧
                             (s.routes.getD j default).node_id = node_id))
    (hgt : (s.routes.getD k default).hop_count < hop_count) :
    mesh_update_route node_id next_hop hop_count now s = s := by
  obtain ⟨f, hf⟩ := mesh_scan_finds node_id s.routes 0 none k hk hact hnode
    hfirst
  simp only [Nat.zero_add] at hf
  have hn : ¬ hop_count ≤ (s.routes.getD k default).hop_count :=
    Nat.not_le_of_lt hgt
  simp only [List.getD_eq_getElem?_getD] at hn
  simp [mesh_update_route, hf, hn]

/-! ### Concrete states for witnesses and counterexamples -/

/-- An active 1-hop route to node 5 via node 5 itself. -/
def exEntry : RouteEntry :=
  { node_id := 5, next_hop := 5, hop_count := 1, last_seen := 0,
    active := true }

/-- An active 2-hop route to node 5 via node 2. -/
def exEntry2 : RouteEntry :=
  { node_id := 5, next_hop := 2, hop_count := 2, last_seen := 0,
    active := true }

/-- A mesh state holding only the 1-hop route `exEntry`. -/
def exState : MeshState :=
  { enabled := true, udp_socket := 8, my_node_id := 1,
    routes := [exEntry, default, default, default, default, default,
               default, default],
    route_count := 1, seq_num := 0, last_beacon := 0, has_callback := true }

/-- A mesh state holding only the 2-hop route `exEntry2`. -/
def exState2 : MeshState :=
  { exState with
    routes := [exEntry2, default, default, default, default, default,
               default, default] }

/-! ### Claim theorems -/

/-- C1: for a beacon-driven `mesh_update_route` on a destination that
already has an active routing-table entry (index `k`, the first active
match, as the C scan finds it), the entry's next hop and hop count are
overwritten and its timestamp refreshed exactly when the advertised hop
count is `<=` the stored one; when it is strictly greater the whole mesh
state — the entry included — is left unchanged. -/
theorem mesh_update_route_monotone (node_id next_hop hop_count now : Nat)
    (s : MeshState) (k : Nat)
    (hk : k < s.routes.length)
    (hact : (s.routes.getD k default).active = true)
    (hnode : (s.routes.getD k default).node_id = node_id)
    (hfirst : ∀ j, j < k → ¬((s.routes.getD j default).active = true ∧
                             (s.routes.getD j default).node_id = node_id)) :
    (hop_count ≤ (s.routes.getD k default).hop_count →
      mesh_update_route node_id next_hop hop_count now s =
        { s with
          routes := s.routes.set k
            (route_overwrite (s.routes.getD k default) next_hop hop_count
              now) }) ∧
    ((s.routes.getD k default).hop_count < hop_count →
      mesh_update_route node_id next_hop hop_count now s = s) :=
  ⟨fun hle => mesh_update_route_le node_id next_hop hop_count now s k hk hact
     hnode hfirst hle,
   fun hgt => mesh_update_route_gt node_id next_hop hop_count now s k hk hact
     hnode hfirst hgt⟩

/-- C1 witness: the spec's own scenario — a hop-count-3 beacon (for node
5 via node 9) against an existing hop-count-1 route leaves the state
untouched, by `mesh_update_route_monotone` at the concrete input. -/
theorem mesh_update_route_monotone_witness :
    mesh_update_route 5 9 3 100 exState = exState :=
  (mesh_update_route_monotone 5 9 3 100 exState 0 (by decide) (by decide)
      (by decide) (fun j hj => absurd hj (Nat.not_lt_zero j))).2 (by decide)

/-- C3 counterexample: the stored entry for node 5 has next hop 2 and hop
count 2; a hop-count-2 beacon advertising next hop 3 (a different
neighbor) refreshes the timestamp but also overwrites the next hop to 3,
so the claim's "next_hop field is left unchanged" fails. -/
theorem mesh_update_route_equal_hop_cex :
    (exState2.routes.getD 0 default).next_hop = 2 ∧
    (exState2.routes.getD 0 default).hop_count = 2 ∧
    ((mesh_update_route 5 3 2 100 exState2).routes.getD 0 default).next_hop
      = 3 ∧
    ((mesh_update_route 5 3 2 100 exState2).routes.getD 0 default).last_seen
      = 100 := by
  decide

/-- C3 amended: a beacon whose advertised hop count equals the stored hop
count of the existing active entry refreshes the entry's timestamp and
also overwrites its next hop with the advertising beacon's next hop
(leaving the hop count at the same value) — the next hop is not
preserved when the beacon comes from a different neighbor. -/
theorem mesh_update_route_equal_hop (node_id next_hop now : Nat)
    (s : MeshState) (k : Nat)
    (hk : k < s.routes.length)
    (hact : (s.routes.getD k default).active = true)
    (hnode : (s.routes.getD k default).node_id = node_id)
    (hfirst : ∀ j, j < k → ¬((s.routes.getD j default).active = true ∧
                             (s.routes.getD j default).node_id = node_id)) :
    mesh_update_route node_id next_hop
        (s.routes.getD k default).hop_count now s =
      { s with
        routes := s.routes.set k
          (route_overwrite (s.routes.getD k default) next_hop
            (s.routes.getD k default).hop_count now) } :=
  mesh_update_route_le node_id next_hop (s.routes.getD k default).hop_count
    now s k hk hact hnode hfirst (Nat.le_refl _)

/-- C3 amended witness: `mesh_update_route_equal_hop` at the concrete
equal-hop input: the entry keeps hop count 2 but takes next hop 3 and
timestamp 100. -/
theorem mesh_update_route_equal_hop_witness :
    mesh_update_route 5 3 2 100 exState2 =
      { exState2 with
        routes := exState2.routes.set 0 (route_overwrite exEntry2 3 2 100) }
    := by
  have h := mesh_update_route_equal_hop 5 3 100 exState2 0 (by decide)
    (by decide) (by decide) (fun j hj => absurd hj (Nat.not_lt_zero j))
  exact h

/-- C2: a received data packet addressed to neither the local node nor
the broadcast id whose hop count has reached the code's hop ceiling
(`MESH_MSG_ROUTE_RESP`, i.e. 4) is dropped — nothing is handed to
`put_sock_sendto` and nothing is delivered to the data callback; one
below the ceiling whose destination has a route is re-transmitted with
its hop count incremented by one and is not delivered locally. -/
theorem mesh_hop_limit_enforced (s : MeshState) (rxlen : Int) (got : Bool)
    (hdr : MeshHdr)
    (ht : hdr.msg_type = MESH_MSG_DATA)
    (hd1 : hdr.dst_node ≠ s.my_node_id)
    (hd2 : hdr.dst_node ≠ 255) :
    (MESH_MSG_ROUTE_RESP ≤ hdr.hop_count →
      mesh_packet_handler s rxlen got hdr =
        { sent := none, delivered := none }) ∧
    (∀ nh, hdr.hop_count < MESH_MSG_ROUTE_RESP →
      mesh_find_route s hdr.dst_node = some nh → 0 < rxlen → got = true →
      mesh_packet_handler s rxlen got hdr =
        { sent := some { hdr with hop_count := hdr.hop_count + 1 },
          delivered := none }) := by
  constructor
  · intro hlim
    by_cases hr : rxlen ≤ 0
    · simp [mesh_packet_handler, hr]
    · cases got with
      | false => simp [mesh_packet_handler, hr]
      | true =>
        simp [mesh_packet_handler, mesh_route_packet, hr, beq_iff_eq, ht,
          hd1, hd2, hlim]
  · intro nh hlt hroute hrx hgot
    subst hgot
    have hr : ¬ rxlen ≤ 0 := by omega
    have hnlim : ¬ MESH_MSG_ROUTE_RESP ≤ hdr.hop_count :=
      Nat.not_le_of_lt hlt
    simp [mesh_packet_handler, mesh_route_packet, hr, beq_iff_eq, ht, hd1,
      hd2, hnlim, hroute]

/-- A 4-hop data packet from node 9 to node 5. -/
def exHdr4 : MeshHdr :=
  { msg_type := 2, src_node := 9, dst_node := 5, hop_count := 4,
    seq_num := 0, payload_len := 3 }

/-- A 1-hop data packet from node 9 to node 5. -/
def exHdr1 : MeshHdr :=
  { msg_type := 2, src_node := 9, dst_node := 5, hop_count := 1,
    seq_num := 0, payload_len := 3 }

/-- C2 witness: `mesh_hop_limit_enforced` at concrete inputs — the 4-hop
packet is dropped, the 1-hop packet is forwarded with hop count 2. -/
theorem mesh_hop_limit_enforced_witness :
    mesh_packet_handler exState 10 true exHdr4 =
      { sent := none, delivered := none } ∧
    mesh_packet_handler exState 10 true exHdr1 =
      { sent := some { exHdr1 with hop_count := 2 }, delivered := none } :=
  ⟨(mesh_hop_limit_enforced exState 10 true exHdr4 (by decide) (by decide)
      (by decide)).1 (by decide),
   (mesh_hop_limit_enforced exState 10 true exHdr1 (by decide) (by decide)
      (by decide)).2 5 (by decide) (by decide) (by decide) rfl⟩

/-- The scan of `mesh_find_route` never selects an entry when no entry of
the list is active with the requested node id. -/
theorem mesh_find_route_scan_no_match (dst : Nat) :
    ∀ (l : List RouteEntry) (cnt i mh : Nat),
    (∀ r ∈ l, ¬(r.active = true ∧ r.node_id = dst)) →
    (mesh_find_route_scan dst l cnt i none mh).1 = none := by
  intro l
  induction l with
  | nil => intro cnt i mh _; cases cnt <;> simp [mesh_find_route_scan]
  | cons r rest ih =>
    intro cnt i mh h
    match cnt with
    | 0 => simp [mesh_find_route_scan]
    | cnt' + 1 =>
      have hr := h r (List.mem_cons_self r rest)
      have hcond : (r.active && (r.node_id == dst) &&
          decide (r.hop_count < mh)) = false := by
        cases hra : r.active with
        | false => simp
        | true =>
          have hne : r.node_id ≠ dst := fun hn => hr ⟨hra, hn⟩
          simp [hne]
      simp only [mesh_find_route_scan, hcond, Bool.false_eq_true, if_false]
      exact ih cnt' (i + 1) mh (fun x hx => h x (List.mem_cons_of_mem r hx))

/-- With no active entry for `dst`, `mesh_find_route` fails. -/
theorem mesh_find_route_none (s : MeshState) (dst : Nat)
    (h : ∀ r ∈ s.routes, ¬(r.active = true ∧ r.node_id = dst)) :
    mesh_find_route s dst = none := by
  unfold mesh_find_route
  rw [mesh_find_route_scan_no_match dst s.routes s.route_count 0 255 h]

/-- C4: `winc_mesh_send` with mesh enabled but no active routing-table
entry for the destination returns `false` with the mesh state (routing
table included) unchanged and no call to `put_sock_sendto` — nothing is
queued and nothing retried. -/
theorem winc_mesh_send_no_route (s : MeshState) (dst_node len : Nat)
    (sendto_ok : Bool)
    (hen : s.enabled = true)
    (hno : ∀ r ∈ s.routes, ¬(r.active = true ∧ r.node_id = dst_node)) :
    winc_mesh_send s dst_node len sendto_ok = (false, s, none) := by
  have hroute := mesh_find_route_none s dst_node hno
  by_cases hu : s.udp_socket < 0
  · simp [winc_mesh_send, hen, hu]
  · simp [winc_mesh_send, hen, hu, hroute]

/-- C4 witness: `winc_mesh_send_no_route` at a concrete state that has a
route to node 5 only — sending to node 7 fails with no transmission and
an unchanged state. -/
theorem winc_mesh_send_no_route_witness :
    winc_mesh_send exState 7 4 true = (false, exState, none) :=
  winc_mesh_send_no_route exState 7 4 true (by decide) (by decide)

/-- Inside the swept range, the sweep acts entrywise. -/
theorem sweep_routes_getD (now : Nat) :
    ∀ (l : List RouteEntry) (cnt i : Nat), i < cnt → i < l.length →
    (sweep_routes now l cnt).getD i default =
      sweep_route now (l.getD i default) := by
  intro l
  induction l with
  | nil => intro cnt i _ h; simp at h
  | cons r rest ih =>
    intro cnt i hic hil
    match cnt with
    | 0 => exact absurd hic (Nat.not_lt_zero i)
    | cnt' + 1 =>
      match i with
      | 0 => simp [sweep_routes]
      | i' + 1 =>
        simp only [sweep_routes, List.getD_cons_succ]
        exact ih cnt' i' (Nat.lt_of_succ_lt_succ hic) (by simpa using hil)

/-- Whatever index the `mesh_find_route` scan selects (beyond the
accumulator it started from) points at an active entry for `dst` inside
the scanned range. -/
theorem mesh_find_route_scan_active (dst : Nat) :
    ∀ (l : List RouteEntry) (cnt i : Nat) (best : Option Nat) (mh j : Nat),
    (mesh_find_route_scan dst l cnt i best mh).1 = some j →
    best = some j ∨
    ∃ k, k < l.length ∧ k < cnt ∧ i + k = j ∧
      (l.getD k default).active = true ∧
      (l.getD k default).node_id = dst := by
  intro l
  induction l with
  | nil =>
    intro cnt i best mh j h
    left; simpa [mesh_find_route_scan] using h
  | cons r rest ih =>
    intro cnt i best mh j h
    match cnt with
    | 0 => left; simpa [mesh_find_route_scan] using h
    | cnt' + 1 =>
      by_cases hc : (r.active && (r.node_id == dst) &&
          decide (r.hop_count < mh)) = true
      · simp only [mesh_find_route_scan, hc, if_true] at h
        have hhead : r.active = true ∧ r.node_id = dst := by
          have h1 := (Bool.and_eq_true _ _).mp hc
          have h2 := (Bool.and_eq_true _ _).mp h1.1
          exact ⟨h2.1, by simpa using h2.2⟩
        rcases ih cnt' (i + 1) (some i) r.hop_count j h with h1 | h1
        · refine Or.inr ⟨0, ?_, ?_, ?_, ?_, ?_⟩
          · simp
          · exact Nat.succ_pos cnt'
          · simpa using Option.some.inj h1
          · simpa using hhead.1
          · simpa using hhead.2
        · obtain ⟨k', hk1, hk2, hk3, hk4, hk5⟩ := h1
          refine Or.inr ⟨k' + 1, ?_, ?_, ?_, ?_, ?_⟩
          · simpa using Nat.succ_lt_succ hk1
          · exact Nat.succ_lt_succ hk2
          · omega
          · simpa using hk4
          · simpa using hk5
      · simp only [mesh_find_route_scan, hc, Bool.false_eq_true, if_false]
          at h
        rcases ih cnt' (i + 1) best mh j h with h1 | h1
        · exact Or.inl h1
        · obtain ⟨k', hk1, hk2, hk3, hk4, hk5⟩ := h1
          refine Or.inr ⟨k' + 1, ?_, ?_, ?_, ?_, ?_⟩
          · simpa using Nat.succ_lt_succ hk1
          · exact Nat.succ_lt_succ hk2
          · omega
          · simpa using hk4
          · simpa using hk5

/-- C5: a routing-table entry inside the scanned range whose last-seen
timestamp is older than `WINC_MESH_ROUTE_TIMEOUT_MS` (30 s) at a
maintenance sweep has its active flag cleared by `winc_mesh_process`;
and `mesh_find_route` only ever answers out of an active entry for the
destination, so an inactive entry is never used for sending or
forwarding. -/
theorem route_expiry_and_lookup (s : MeshState) (now : Nat) (bok : Bool)
    (i : Nat)
    (hen : s.enabled = true)
    (hic : i < s.route_count)
    (hil : i < s.routes.length)
    (hact : (s.routes.getD i default).active = true)
    (hmono : (s.routes.getD i default).last_seen ≤ now)
    (hnow : now < 4294967296)
    (hexp : WINC_MESH_ROUTE_TIMEOUT_MS <
            now - (s.routes.getD i default).last_seen) :
    (((winc_mesh_process now bok s).routes.getD i default).active = false) ∧
    (∀ dst nh, mesh_find_route s dst = some nh →
      ∃ k, k < s.route_count ∧ k < s.routes.length ∧
        (s.routes.getD k default).active = true ∧
        (s.routes.getD k default).node_id = dst ∧
        (s.routes.getD k default).next_hop = nh) := by
  constructor
  · have hproc : (winc_mesh_process now bok s).routes =
        sweep_routes now s.routes s.route_count := by
      unfold winc_mesh_process
      by_cases hb :
          u32_sub now s.last_beacon > WINC_MESH_BEACON_INTERVAL_MS <;>
        simp [hen, hb]
    rw [hproc, sweep_routes_getD now s.routes s.route_count i hic hil]
    unfold sweep_route
    rw [u32_sub_eq now (s.routes.getD i default).last_seen hmono hnow]
    simp only [List.getD_eq_getElem?_getD] at hact hexp
    simp [hact, hexp]
  · intro dst nh h
    unfold mesh_find_route at h
    cases hscan : (mesh_find_route_scan dst s.routes s.route_count 0 none
        255).1 with
    | none => rw [hscan] at h; simp at h
    | some best =>
      rw [hscan] at h
      rcases mesh_find_route_scan_active dst s.routes s.route_count 0 none
          255 best hscan with h1 | ⟨k, hk1, hk2, hk3, hk4, hk5⟩
      · exact absurd h1 (by simp)
      · refine ⟨k, hk2, hk1, hk4, hk5, ?_⟩
        have hkb : k = best := by omega
        rw [hkb]
        exact Option.some.inj h

/-- C5 witness: `route_expiry_and_lookup` at the concrete state holding
one route (to node 5, last seen at 0) processed at time 40000: the entry
goes inactive, and the successful lookup for node 5 indeed came from an
active entry. -/
theorem route_expiry_and_lookup_witness :
    (((winc_mesh_process 40000 true exState).routes.getD 0 default).active
      = false) ∧
    (∃ k, k < exState.route_count ∧ k < exState.routes.length ∧
      (exState.routes.getD k default).active = true ∧
      (exState.routes.getD k default).node_id = 5 ∧
      (exState.routes.getD k default).next_hop = 5) :=
  have h := route_expiry_and_lookup exState 40000 true 0 (by decide)
    (by decide) (by decide) (by decide) (by decide) (by decide) (by decide)
  ⟨h.1, h.2 5 5 (by decide)⟩

/-- `HIF_HDR_SIZE` (src/winc_lib.h:276). -/
def HIF_HDR_SIZE : Nat := 8

/-- The guarded `hif_data_addr` store of `interrupt_handler`
(src/winc_lib.c:836): on a `GOP_RECVFROM`/`GOP_RECV` response the
device-side data address is remembered only when the reported socket
index is below `MAX_SOCKETS`. -/
def interrupt_store_data_addr (sockets : List SOCKET) (sock : Nat)
    (addr oset : Nat) : List SOCKET :=
  if sock < MAX_SOCKETS then
    sockets.set sock
      { sockets.getD sock default with
        hif_data_addr := addr + HIF_HDR_SIZE + oset }
  else sockets

/-- A bound UDP socket with a registered handler, as the mesh layer sets
slot 7 up. -/
def exSock7 : SOCKET :=
  { addr := { family := 2, port := 0, ip := 0 }, localport := 5555,
    session := 1, state := STATE_BOUND, has_handler := true,
    hif_data_addr := 0 }

/-- A 10-slot socket pool with only slot 7 in use. -/
def exSocks : List SOCKET :=
  [default, default, default, default, default, default, default, exSock7,
   default, default]

/-- C6: a chip response carrying a socket index at or beyond
`MAX_SOCKETS` (10) — on the bind, recvfrom, recv or accept path — leaves
the pool untouched, invokes no handler and issues no socket command:
the index is validated before any slot access. -/
theorem check_sock_index_validated (rmp : RESP_MSG) (sockets : List SOCKET) :
    (MAX_SOCKETS ≤ rmp.bind_sock →
      check_sock GOP_BIND rmp sockets =
        { sockets := sockets, handler_calls := [], cmds := [] }) ∧
    (MAX_SOCKETS ≤ rmp.recv_sock →
      check_sock GOP_RECVFROM rmp sockets =
        { sockets := sockets, handler_calls := [], cmds := [] }) ∧
    (MAX_SOCKETS ≤ rmp.recv_sock →
      check_sock GOP_RECV rmp sockets =
        { sockets := sockets, handler_calls := [], cmds := [] }) ∧
    (MAX_SOCKETS ≤ rmp.accept_listen_sock ∨
        MAX_SOCKETS ≤ rmp.accept_conn_sock →
      check_sock GOP_ACCEPT rmp sockets =
        { sockets := sockets, handler_calls := [], cmds := [] }) ∧
    (∀ addr oset, MAX_SOCKETS ≤ rmp.recv_sock →
      interrupt_store_data_addr sockets rmp.recv_sock addr oset =
        sockets) := by
  refine ⟨fun h => ?_, fun h => ?_, fun h => ?_, fun h => ?_,
    fun addr oset h => ?_⟩
  · simp [check_sock, GOP_BIND, GOP_DHCP_CONF, GOP_AP_ENABLE,
      GOP_DHCP_CONF_AP, GOP_RECVFROM, GOP_ACCEPT, GOP_RECV,
      Nat.not_lt_of_le h]
  · simp [check_sock, GOP_BIND, GOP_DHCP_CONF, GOP_AP_ENABLE,
      GOP_DHCP_CONF_AP, GOP_RECVFROM, GOP_ACCEPT, GOP_RECV,
      Nat.not_lt_of_le h]
  · simp [check_sock, GOP_BIND, GOP_DHCP_CONF, GOP_AP_ENABLE,
      GOP_DHCP_CONF_AP, GOP_RECVFROM, GOP_ACCEPT, GOP_RECV,
      Nat.not_lt_of_le h]
  · rcases h with h | h <;>
      simp [check_sock, GOP_BIND, GOP_DHCP_CONF, GOP_AP_ENABLE,
        GOP_DHCP_CONF_AP, GOP_RECVFROM, GOP_ACCEPT, GOP_RECV,
        Nat.not_lt_of_le h]
  · simp [interrupt_store_data_addr, Nat.not_lt_of_le h]

/-- An out-of-range response: every socket index field is 12. -/
def exRmpBig : RESP_MSG :=
  { bind_sock := 12, recv_sock := 12, recv_dlen := 4,
    recv_addr := { family := 2, port := 100, ip := 200 },
    accept_listen_sock := 12, accept_conn_sock := 12 }

/-- C6 witness: `check_sock_index_validated` at index 12 on the concrete
pool, for all four response kinds. -/
theorem check_sock_index_validated_witness :
    check_sock GOP_BIND exRmpBig exSocks =
      { sockets := exSocks, handler_calls := [], cmds := [] } ∧
    check_sock GOP_RECVFROM exRmpBig exSocks =
      { sockets := exSocks, handler_calls := [], cmds := [] } ∧
    check_sock GOP_RECV exRmpBig exSocks =
      { sockets := exSocks, handler_calls := [], cmds := [] } ∧
    check_sock GOP_ACCEPT exRmpBig exSocks =
      { sockets := exSocks, handler_calls := [], cmds := [] } ∧
    interrupt_store_data_addr exSocks 12 1000 16 = exSocks :=
  have h := check_sock_index_validated exRmpBig exSocks
  ⟨h.1 (by decide), h.2.1 (by decide), h.2.2.1 (by decide),
   h.2.2.2.1 (Or.inl (by decide)), h.2.2.2.2 1000 16 (by decide)⟩

/-- A response reporting a receive error (`dlen = -9`) on socket 7. -/
def exRmpErr : RESP_MSG :=
  { bind_sock := 0, recv_sock := 7, recv_dlen := -9,
    recv_addr := { family := 2, port := 100, ip := 200 },
    accept_listen_sock := 0, accept_conn_sock := 0 }

/-- C7 counterexample: when a `GOP_RECVFROM` response carries the error
length `-9` for bound socket 7, `check_sock` invokes the handler with
the negative length, yet still re-arms reception (`recvfrom` is issued
again) and leaves the socket state at `STATE_BOUND`, not `STATE_CLOSED`
— against the claim that an error never re-arms and forces `Closed`. -/
theorem check_sock_recvfrom_error_cex :
    (check_sock GOP_RECVFROM exRmpErr exSocks).handler_calls = [(7, -9)] ∧
    (check_sock GOP_RECVFROM exRmpErr exSocks).cmds =
      [SockCmd.recvfrom 7] ∧
    ((check_sock GOP_RECVFROM exRmpErr exSocks).sockets.getD 7
      default).state = STATE_BOUND := by
  decide

/-- C7 amended: on the connection-oriented path (`GOP_RECV`) the
dispatcher re-arms only for a positive receive length, so an error is
never re-armed there; on the connectionless path (`GOP_RECVFROM`) it
re-arms unconditionally after the handler, a negative length included,
and `check_sock` itself never moves the socket to `STATE_CLOSED` —
closing on error is left to the individual handler. -/
theorem check_sock_rearm_discipline (rmp : RESP_MSG)
    (sockets : List SOCKET) :
    (rmp.recv_dlen ≤ 0 → (check_sock GOP_RECV rmp sockets).cmds = []) ∧
    (rmp.recv_sock < MAX_SOCKETS →
     (sockets.getD rmp.recv_sock default).state = STATE_BOUND →
      (check_sock GOP_RECVFROM rmp sockets).cmds =
        [SockCmd.recvfrom rmp.recv_sock] ∧
      ((check_sock GOP_RECVFROM rmp sockets).sockets.getD rmp.recv_sock
        default).state = STATE_BOUND) := by
  constructor
  · intro hdlen
    have hnp : ¬ 0 < rmp.recv_dlen := by omega
    by_cases h1 : rmp.recv_sock < MAX_SOCKETS
    · by_cases h2 :
          (sockets.getD rmp.recv_sock default).state = STATE_CONNECTED
      · simp only [List.getD_eq_getElem?_getD] at h2
        simp [check_sock, GOP_BIND, GOP_DHCP_CONF, GOP_AP_ENABLE,
          GOP_DHCP_CONF_AP, GOP_RECVFROM, GOP_ACCEPT, GOP_RECV, h1, h2,
          hnp]
      · simp only [List.getD_eq_getElem?_getD] at h2
        simp [check_sock, GOP_BIND, GOP_DHCP_CONF, GOP_AP_ENABLE,
          GOP_DHCP_CONF_AP, GOP_RECVFROM, GOP_ACCEPT, GOP_RECV, h1, h2]
    · simp [check_sock, GOP_BIND, GOP_DHCP_CONF, GOP_AP_ENABLE,
        GOP_DHCP_CONF_AP, GOP_RECVFROM, GOP_ACCEPT, GOP_RECV, h1]
  · intro h1 h2
    have hlen : rmp.recv_sock < sockets.length := by
      by_contra hge
      rw [List.getD_eq_default _ _ (Nat.le_of_not_lt hge)] at h2
      exact absurd h2 (by decide)
    have h2g : sockets[rmp.recv_sock].state = STATE_BOUND := by
      rw [List.getD_eq_getElem sockets default hlen] at h2
      exact h2
    constructor
    · simp [check_sock, GOP_BIND, GOP_DHCP_CONF, GOP_AP_ENABLE,
        GOP_DHCP_CONF_AP, GOP_RECVFROM, GOP_ACCEPT, GOP_RECV, h1, h2g,
        hlen]
    · simp [check_sock, GOP_BIND, GOP_DHCP_CONF, GOP_AP_ENABLE,
        GOP_DHCP_CONF_AP, GOP_RECVFROM, GOP_ACCEPT, GOP_RECV, h1, h2g,
        hlen, List.getD_eq_getElem?_getD, List.getElem?_set_self]

/-- C7 amended witness: `check_sock_rearm_discipline` at the concrete
error response on socket 7: the `GOP_RECV` path issues nothing, the
`GOP_RECVFROM` path re-arms and keeps the socket bound. -/
theorem check_sock_rearm_discipline_witness :
    (check_sock GOP_RECV exRmpErr exSocks).cmds = [] ∧
    (check_sock GOP_RECVFROM exRmpErr exSocks).cmds =
      [SockCmd.recvfrom 7] ∧
    ((check_sock GOP_RECVFROM exRmpErr exSocks).sockets.getD 7
      default).state = STATE_BOUND :=
  have h := check_sock_rearm_discipline exRmpErr exSocks
  ⟨h.1 (by decide), (h.2 (by decide) (by decide)).1,
   (h.2 (by decide) (by decide)).2⟩

/-- C8: `put_sock_sendto` substitutes the all-ones broadcast address
when the stored remote IP is zero, substitutes the socket's bound local
port (byte-swapped to wire order, as every embedded port is) when the
stored remote port is zero, and places the payload at the fixed UDP data
offset of the same message. -/
theorem put_sock_sendto_defaults (sp : SOCKET) (sock len : Nat) :
    (sp.addr.ip = 0 →
      (put_sock_sendto sp sock len).cmd.saddr.ip = 4294967295) ∧
    (sp.addr.port = 0 →
      (put_sock_sendto sp sock len).cmd.saddr.port = swap16 sp.localport) ∧
    (put_sock_sendto sp sock len).payload_oset = UDP_DATA_OSET := by
  refine ⟨fun h => ?_, fun h => ?_, rfl⟩
  · simp [put_sock_sendto, h]
  · simp [put_sock_sendto, h]

/-- C8 witness: `put_sock_sendto_defaults` on a socket with unset remote
address and port: broadcast IP, swapped local port 5555, payload at
offset 68. -/
theorem put_sock_sendto_defaults_witness :
    (put_sock_sendto exSock7 8 10).cmd.saddr.ip = 4294967295 ∧
    (put_sock_sendto exSock7 8 10).cmd.saddr.port = swap16 5555 ∧
    (put_sock_sendto exSock7 8 10).payload_oset = UDP_DATA_OSET :=
  have h := put_sock_sendto_defaults exSock7 8 10
  ⟨h.1 rfl, h.2.1 rfl, h.2.2⟩

/-- Whatever index `open_sock_scan` returns lies in the scanned window
and names a closed slot. -/
theorem open_sock_scan_some (sockets : List SOCKET) :
    ∀ (cnt start j : Nat), open_sock_scan sockets start cnt = some j →
    start ≤ j ∧ j < start + cnt ∧ (sockets.getD j default).state = 0 := by
  intro cnt
  induction cnt with
  | zero => intro start j h; simp [open_sock_scan] at h
  | succ n ih =>
    intro start j h
    by_cases hc : ((sockets.getD start default).state == 0) = true
    · simp only [open_sock_scan, hc, if_true] at h
      obtain rfl := Option.some.inj h
      exact ⟨Nat.le_refl _, by omega, by simpa using hc⟩
    · simp only [open_sock_scan, hc, Bool.false_eq_true, if_false] at h
      obtain ⟨h1, h2, h3⟩ := ih (start + 1) j h
      exact ⟨by omega, by omega, h3⟩

/-- `open_sock_scan` fails when every slot of the window is non-closed. -/
theorem open_sock_scan_none (sockets : List SOCKET) :
    ∀ (cnt start : Nat),
    (∀ i, start ≤ i → i < start + cnt →
      (sockets.getD i default).state ≠ 0) →
    open_sock_scan sockets start cnt = none := by
  intro cnt
  induction cnt with
  | zero => intro start _; rfl
  | succ n ih =>
    intro start h
    have hc : ((sockets.getD start default).state == 0) = false := by
      simpa using h start (Nat.le_refl _) (by omega)
    simp only [open_sock_scan, hc, Bool.false_eq_true, if_false]
    exact ih (start + 1) (fun i hi1 hi2 => h i (by omega) (by omega))

/-- C9: `open_sock_server` scans the kind-specific sub-range with an
exclusive upper bound: a UDP allocation lands at an index in `[7, 10)`
(so index `MAX_UDP_SOCK = 10` is never allocated and at most 3 UDP
sockets coexist) and a TCP allocation at an index in `[0, 7)` (index
`MAX_TCP_SOCK = 7` is never allocated), in each case a slot that was in
the closed state; when every slot of the sub-range is non-closed the
call returns `-1` with the pool unchanged and no command issued. -/
theorem open_sock_server_subranges (sockets : List SOCKET)
    (portnum session : Nat) (dhcp_done : Bool) :
    ((open_sock_server sockets portnum false session dhcp_done).1 = -1 ∨
      ∃ n : Nat,
        (open_sock_server sockets portnum false session dhcp_done).1 =
          Int.ofNat n ∧
        MIN_UDP_SOCK ≤ n ∧ n < MAX_UDP_SOCK ∧
        (sockets.getD n default).state = 0) ∧
    ((open_sock_server sockets portnum true session dhcp_done).1 = -1 ∨
      ∃ n : Nat,
        (open_sock_server sockets portnum true session dhcp_done).1 =
          Int.ofNat n ∧
        n < MAX_TCP_SOCK ∧ (sockets.getD n default).state = 0) ∧
    ((∀ i, MIN_UDP_SOCK ≤ i → i < MAX_UDP_SOCK →
        (sockets.getD i default).state ≠ 0) →
      open_sock_server sockets portnum false session dhcp_done =
        (-1, sockets, [])) ∧
    ((∀ i, i < MAX_TCP_SOCK → (sockets.getD i default).state ≠ 0) →
      open_sock_server sockets portnum true session dhcp_done =
        (-1, sockets, [])) := by
  refine ⟨?_, ?_, ?_, ?_⟩
  · cases hscan : open_sock_scan sockets MIN_UDP_SOCK
        (MAX_UDP_SOCK - MIN_UDP_SOCK) with
    | none => left; simp [open_sock_server, hscan]
    | some sock =>
      right
      obtain ⟨h1, h2, h3⟩ := open_sock_scan_some sockets _ _ _ hscan
      have hco : MIN_UDP_SOCK + (MAX_UDP_SOCK - MIN_UDP_SOCK) =
          MAX_UDP_SOCK := by decide
      refine ⟨sock, ?_, h1, by omega, h3⟩
      cases dhcp_done <;> simp [open_sock_server, hscan]
  · cases hscan : open_sock_scan sockets MIN_TCP_SOCK
        (MAX_TCP_SOCK - MIN_TCP_SOCK) with
    | none => left; simp [open_sock_server, hscan]
    | some sock =>
      right
      obtain ⟨h1, h2, h3⟩ := open_sock_scan_some sockets _ _ _ hscan
      have hco : MIN_TCP_SOCK + (MAX_TCP_SOCK - MIN_TCP_SOCK) =
          MAX_TCP_SOCK := by decide
      refine ⟨sock, ?_, by omega, h3⟩
      cases dhcp_done <;> simp [open_sock_server, hscan]
  · intro h
    have hco : MIN_UDP_SOCK + (MAX_UDP_SOCK - MIN_UDP_SOCK) =
        MAX_UDP_SOCK := by decide
    have hscan : open_sock_scan sockets MIN_UDP_SOCK
        (MAX_UDP_SOCK - MIN_UDP_SOCK) = none :=
      open_sock_scan_none sockets _ _ (fun i hi1 hi2 => h i hi1 (by omega))
    simp [open_sock_server, hscan]
  · intro h
    have hco : MIN_TCP_SOCK + (MAX_TCP_SOCK - MIN_TCP_SOCK) =
        MAX_TCP_SOCK := by decide
    have hscan : open_sock_scan sockets MIN_TCP_SOCK
        (MAX_TCP_SOCK - MIN_TCP_SOCK) = none :=
      open_sock_scan_none sockets _ _
        (fun i hi1 hi2 => h i (by omega))
    simp [open_sock_server, hscan]

/-- A socket slot in use (bound). -/
def busySock : SOCKET :=
  { addr := { family := 2, port := 0, ip := 0 }, localport := 1,
    session := 1, state := STATE_BOUND, has_handler := false,
    hif_data_addr := 0 }

/-- A pool with every slot in use. -/
def fullSocks : List SOCKET := List.replicate 10 busySock

/-- C9 witness: `open_sock_server_subranges` on the fully-occupied pool:
both the UDP and the TCP call return `-1` with the pool unchanged and no
command issued. -/
theorem open_sock_server_subranges_witness :
    open_sock_server fullSocks 5555 false 1 false =
      (-1, fullSocks, []) ∧
    open_sock_server fullSocks 5555 true 1 false =
      (-1, fullSocks, []) :=
  have h := open_sock_server_subranges fullSocks 5555 1 false
  ⟨h.2.2.1 (by
      intro i h1 h2
      simp only [MIN_UDP_SOCK, MAX_UDP_SOCK] at h1 h2
      interval_cases i <;> decide),
   h.2.2.2 (by
      intro i h2
      simp only [MAX_TCP_SOCK] at h2
      interval_cases i <;> decide)⟩

/-- Whatever free slot the `mesh_update_route` scan reports (beyond the
accumulator it started from) is an index into the scanned list. -/
theorem mesh_scan_free_bound (node_id : Nat) :
    ∀ (l : List RouteEntry) (i : Nat) (free e : Option Nat) (f : Nat),
    mesh_scan node_id l i free = (e, some f) →
    free = some f ∨ (i ≤ f ∧ f < i + l.length) := by
  intro l
  induction l with
  | nil =>
    intro i free e f h
    left
    simp only [mesh_scan] at h
    exact ((Prod.mk.injEq _ _ _ _).mp h).2
  | cons r rest ih =>
    intro i free e f h
    by_cases hc : (r.active && (r.node_id == node_id)) = true
    · simp only [mesh_scan, hc, if_true] at h
      left
      exact ((Prod.mk.injEq _ _ _ _).mp h).2
    · simp only [mesh_scan, hc, Bool.false_eq_true, if_false] at h
      rcases ih (i + 1) _ e f h with h1 | h1
      · by_cases hfa : (!r.active && free.isNone) = true
        · rw [if_pos hfa] at h1
          have hif := Option.some.inj h1
          right
          exact ⟨by omega, by simp only [List.length_cons]; omega⟩
        · rw [if_neg hfa] at h1
          exact Or.inl h1
      · right
        obtain ⟨ha, hb⟩ := h1
        exact ⟨by omega, by simp only [List.length_cons]; omega⟩

/-- C10: `mesh_update_route` preserves the routing-table invariant: on a
full-size (8-entry) table with `route_count <= 8`, the updated state
still has `route_count <= WINC_MESH_MAX_NODES` and a table of the same 8
slots (every write lands at an index below 8); and
`winc_mesh_get_node_count` counts the active entries among the first
`route_count` slots, so it never exceeds `route_count`. -/
theorem mesh_route_table_invariant (node_id next_hop hop_count now : Nat)
    (s : MeshState)
    (hlen : s.routes.length = WINC_MESH_MAX_NODES)
    (hrc : s.route_count ≤ WINC_MESH_MAX_NODES) :
    (mesh_update_route node_id next_hop hop_count now s).route_count ≤
      WINC_MESH_MAX_NODES ∧
    (mesh_update_route node_id next_hop hop_count now s).routes.length =
      WINC_MESH_MAX_NODES ∧
    winc_mesh_get_node_count s ≤ s.route_count := by
  have hcount : winc_mesh_get_node_count s ≤ s.route_count := by
    unfold winc_mesh_get_node_count
    calc ((s.routes.take s.route_count).filter
            (fun r => r.active)).length
        ≤ (s.routes.take s.route_count).length :=
          List.length_filter_le _ _
      _ ≤ s.route_count := by
          rw [List.length_take]; exact Nat.min_le_left _ _
  cases hscan : mesh_scan node_id s.routes 0 none with
  | mk e fr =>
    cases e with
    | some ex =>
      unfold mesh_update_route
      rw [hscan]
      by_cases hle :
          hop_count ≤ (s.routes.getD ex default).hop_count <;>
        simp only [List.getD_eq_getElem?_getD] at hle <;>
        simp [hle, hlen, hrc, hcount]
    | none =>
      cases fr with
      | none =>
        unfold mesh_update_route
        rw [hscan]
        exact ⟨hrc, hlen, hcount⟩
      | some f =>
        have hf : f < WINC_MESH_MAX_NODES := by
          rcases mesh_scan_free_bound node_id s.routes 0 none none f hscan
            with h1 | h1
          · exact absurd h1 (by simp)
          · omega
        unfold mesh_update_route
        rw [hscan]
        by_cases hge : f ≥ s.route_count <;>
          simp [hge, hlen, hrc, hcount, hf, Nat.succ_le_of_lt]

/-- C10 witness: `mesh_route_table_invariant` on the concrete one-route
state updated with a new 2-hop route for node 9. -/
theorem mesh_route_table_invariant_witness :
    (mesh_update_route 9 9 2 100 exState).route_count ≤
      WINC_MESH_MAX_NODES ∧
    (mesh_update_route 9 9 2 100 exState).routes.length =
      WINC_MESH_MAX_NODES ∧
    winc_mesh_get_node_count exState ≤ exState.route_count :=
  mesh_route_table_invariant 9 9 2 100 exState (by decide) (by decide)

end Winc
